import Mathlib

/-!
Verification model of the channel-funding construction engine: the
transaction weight estimator, the fee computation, and the funding plan
assembler (explicit-selection mode and fund-maximum mode), together with
proofs of the documented invariants and of the concrete funding scenarios
exercised by the integration tests
(`lnd_channel_funding_utxo_selection_test.go`, `testChannelFundMax`).

Amounts are integer satoshi; weights are integer weight units; fee rates
are integer satoshi per 1000 weight units.
-/

namespace LndFunding

/-- Script classes relevant to funding transactions: witness-pubkey-hash
inputs/outputs, witness-script-hash (the 2-of-2 multisig funding output),
and taproot (the wallet's change output class in the tests). -/
inductive ScriptClass where
  | p2wkh
  | p2wsh
  | p2tr
deriving DecidableEq, Repr

/-- Modelled from the spec (§4.1): per-class base (non-witness) size of a
spent input in bytes.  Every witness input serializes as
txid(32) + index(4) + empty-sigscript-length(1) + sequence(4) = 41 bytes.
The wallet's weight estimator (`input.TxWeightEstimator`, not among the
source files) uses these constants; the values are pinned by the exact fee
amounts asserted in the integration tests. -/
def inBaseOf : ScriptClass → Nat
  | _ => 41

/-- Modelled from the spec (§4.1): per-class witness size in bytes
(witness data is discounted 4:1 relative to base data).
p2wkh: items(1) + sig-len(1) + sig(73) + key-len(1) + key(33) = 109;
p2wsh (2-of-2 multisig spend): 222; taproot key spend: 66. -/
def witnessSizeOf : ScriptClass → Nat
  | .p2wkh => 109
  | .p2wsh => 222
  | .p2tr => 66

/-- Modelled from the spec (§4.1): per-class output size in bytes:
value(8) + script-length(1) + script (p2wkh 22, p2wsh 34, p2tr 34). -/
def outSizeOf : ScriptClass → Nat
  | .p2wkh => 31
  | .p2wsh => 43
  | .p2tr => 43

/-- Serialized size of a Bitcoin variable-length integer counting `n`
items. -/
def varIntSize (n : Nat) : Nat :=
  if n < 253 then 1
  else if n < 65536 then 3
  else if n < 4294967296 then 5
  else 9

/-- Modelled from the spec (§4.1): the running state of the wallet's
transaction weight estimator (`input.TxWeightEstimator`, not among the
source files): counts and cumulative sizes of the inputs and outputs added
so far, and whether any added input carries witness data. -/
structure TxWeightEstimator where
  inputCount : Nat
  outputCount : Nat
  inputSize : Nat
  inWitSize : Nat
  outputSize : Nat
  hasWitness : Bool
deriving DecidableEq, Repr

/-- The empty estimator: no inputs, no outputs, no witness. -/
def TxWeightEstimator.empty : TxWeightEstimator :=
  ⟨0, 0, 0, 0, 0, false⟩

/-- Add one input of the given script class (all three classes here are
witness classes, so the witness flag is set). -/
def addInputClass (e : TxWeightEstimator) (c : ScriptClass) :
    TxWeightEstimator :=
  { e with
    inputCount := e.inputCount + 1
    inputSize := e.inputSize + inBaseOf c
    inWitSize := e.inWitSize + witnessSizeOf c
    hasWitness := true }

/-- Add one output of the given script class. -/
def addOutputClass (e : TxWeightEstimator) (c : ScriptClass) :
    TxWeightEstimator :=
  { e with
    outputCount := e.outputCount + 1
    outputSize := e.outputSize + outSizeOf c }

/-- Modelled from the spec (§4.1): total transaction weight of the
estimator state, following the segregated-witness weight model: the
stripped size (version 4 + input count varint + inputs + output count
varint + outputs + locktime 4) counts 4 weight units per byte, witness
data (2-byte marker/flag header plus the per-input witnesses) counts 1
weight unit per byte. -/
def TxWeightEstimator.weight (e : TxWeightEstimator) : Nat :=
  4 * (8 + varIntSize e.inputCount + e.inputSize
        + varIntSize e.outputCount + e.outputSize)
    + (if e.hasWitness then 2 + e.inWitSize else 0)

/-- Weight of a transaction with the given input and output script
classes, obtained by feeding them to the estimator in order. -/
def estimateWeight (inputs outputs : List ScriptClass) : Nat :=
  (List.foldl addOutputClass
    (List.foldl addInputClass TxWeightEstimator.empty inputs) outputs).weight

/-- Closed form of `estimateWeight`: a pure function of the per-class
constants, the input/output counts, and a 4:1 witness discount. -/
def weightClosedForm (inputs outputs : List ScriptClass) : Nat :=
  4 * (8 + varIntSize inputs.length + (inputs.map inBaseOf).sum
        + varIntSize outputs.length + (outputs.map outSizeOf).sum)
    + (if inputs.length = 0 then 0 else 2 + (inputs.map witnessSizeOf).sum)

/-- Modelled from the spec (§4.1): fee for a given weight at a fee rate in
satoshi per 1000 weight units (`chainfee.SatPerKWeight.FeeForWeight`, not
among the source files): `feeRate * weight / 1000` with integer division,
i.e. rounded down. -/
def feeForWeight (rate weight : Nat) : Nat :=
  rate * weight / 1000

/-- Weight of a funding transaction with `numInput` witness-pubkey-hash
inputs, the multisig (witness-script-hash) funding output, and optionally
a taproot change output — the estimate built by `fundingFee` in the
integration tests. -/
def fundingTxWeight (numInput : Nat) (change : Bool) : Nat :=
  estimateWeight (List.replicate numInput .p2wkh)
    (if change then [.p2wsh, .p2tr] else [.p2wsh])

/-- Fee of a funding transaction shape at an arbitrary fee rate
(satoshi per 1000 weight units). -/
def fundingFeeAt (rate numInput : Nat) (change : Bool) : Nat :=
  feeForWeight rate (fundingTxWeight numInput change)

/-- Embeds `fundingFee` from the integration tests: fee estimate for a
funding transaction with the given number of (witness-pubkey-hash) inputs,
the multisig funding output, and an optional taproot change output, at the
standard funding fee rate of 12500 sat per kiloweight. -/
def fundingFee (numInput : Nat) (change : Bool) : Nat :=
  fundingFeeAt 12500 numInput change

/-- Modelled from the spec/tests: conversion of a per-request fee rate in
satoshi per virtual byte to satoshi per 1000 weight units; a rate of 0
means unspecified and selects the standard funding fee rate 12500, a
nonzero rate is multiplied by 250 (1000/4) and floored at the minimum
relay rate of 253. -/
def satPerVByteToKw (r : Nat) : Nat :=
  if r = 0 then 12500 else max (250 * r) 253

/-- Maximum (non-wumbo) channel funding amount, `lnd.MaxFundingAmount`
referenced by the integration tests: 2^24 − 1 satoshi. -/
def MaxFundingAmount : Nat := 16777215

/-- Modelled from the spec (§4.3, §6): the channel policy snapshot
consulted by the Limits and Reserve Validator — minimum and maximum
channel size and the dust threshold.  The concrete values used by the
node under test are in `defaultPolicy`. -/
structure Policy where
  minChanSize : Nat
  maxChanSize : Nat
  dustLimit : Nat
deriving DecidableEq, Repr

/-- The policy in force in the integration tests: minimum channel size
20,000 sat (0.0002 BTC in the asserted error strings), maximum channel
size `MaxFundingAmount`, dust threshold 330 sat (0.0000033 BTC in the
asserted error strings). -/
def defaultPolicy : Policy :=
  ⟨20000, MaxFundingAmount, 330⟩

/-- Modelled from the spec (§3): a successfully assembled funding plan:
the selected input amounts, the funding output amount, the change output
amount (0 when no change output exists), and the fee. -/
structure FundingPlan where
  inputs : List Nat
  fundingAmt : Int
  changeAmt : Int
  fee : Int
deriving DecidableEq, Repr

/-- Modelled from the spec (§7): the typed failures of a funding attempt,
each carrying the structured diagnostic amounts the spec requires. -/
inductive FundingError where
  | dustOutput (amount fee dustLimit : Int)
  | belowMinChanSize (available minimum : Int)
  | aboveMaxChanSize (requested maximum : Int)
  | insufficientFunds (requested available : Int)
  | funderBalanceTooSmall (afterPushMsat minimumMsat : Int)
  | reserveViolation (shortfall : Int)
deriving DecidableEq, Repr

deriving instance DecidableEq for Except

/-- Sum of a list of coin amounts. -/
def sumCoins (coins : List Nat) : Nat := coins.sum

/-- Modelled from the spec (§4.3–§4.5): the fund-maximum path of the
Funding Plan Assembler (the assembler itself, `chanfunding`, is not among
the source files; its behavior here follows the spec and is pinned by the
fund-maximum integration tests).  `coins` are the selected inputs (the
explicit selection, or the whole free wallet set), `freeRemainder` is the
summed amount of the unselected free coins, `reserve` the required
post-open wallet reserve (0 for commitment formats without anchor
outputs).  Steps: spend everything minus the no-change fee; if that
exceeds the maximum channel size, cap the funding output at the maximum
and return the surplus as change (folding a sub-dust surplus into the
fee); otherwise reject dust and below-minimum funding amounts; if the
unselected remainder cannot cover the required reserve, re-estimate with a
change output and shrink the funding amount so that a change output of
exactly the required reserve is created, failing if the shrunk amount
falls below the minimum channel size. -/
def fundMaxAssemble (pol : Policy) (rate : Nat) (coins : List Nat)
    (freeRemainder reserve : Nat) : Except FundingError FundingPlan :=
  if (pol.maxChanSize : Int) <
      (sumCoins coins : Int) - (fundingFeeAt rate coins.length false : Int) then
    if (sumCoins coins : Int) - (pol.maxChanSize : Int)
        - (fundingFeeAt rate coins.length true : Int) < (pol.dustLimit : Int) then
      .ok ⟨coins, (pol.maxChanSize : Int), 0,
           (sumCoins coins : Int) - (pol.maxChanSize : Int)⟩
    else
      .ok ⟨coins, (pol.maxChanSize : Int),
           (sumCoins coins : Int) - (pol.maxChanSize : Int)
             - (fundingFeeAt rate coins.length true : Int),
           (fundingFeeAt rate coins.length true : Int)⟩
  else if (sumCoins coins : Int)
      - (fundingFeeAt rate coins.length false : Int) < (pol.dustLimit : Int) then
    .error (.dustOutput
      ((sumCoins coins : Int) - (fundingFeeAt rate coins.length false : Int))
      (fundingFeeAt rate coins.length false : Int) (pol.dustLimit : Int))
  else if (sumCoins coins : Int)
      - (fundingFeeAt rate coins.length false : Int) < (pol.minChanSize : Int) then
    .error (.belowMinChanSize
      ((sumCoins coins : Int) - (fundingFeeAt rate coins.length false : Int))
      (pol.minChanSize : Int))
  else if freeRemainder < reserve then
    if (sumCoins coins : Int) - (fundingFeeAt rate coins.length true : Int)
        - (reserve : Int) < (pol.minChanSize : Int) then
      .error (.reserveViolation ((reserve : Int) - (freeRemainder : Int)))
    else
      .ok ⟨coins,
           (sumCoins coins : Int) - (fundingFeeAt rate coins.length true : Int)
             - (reserve : Int),
           (reserve : Int), (fundingFeeAt rate coins.length true : Int)⟩
  else
    .ok ⟨coins,
         (sumCoins coins : Int) - (fundingFeeAt rate coins.length false : Int),
         0, (fundingFeeAt rate coins.length false : Int)⟩

/-- Modelled from the spec (§4.4 explicit mode, §4.3): the
explicit-selection path of the Funding Plan Assembler.  The selector must
use exactly the given `coins`.  If their sum cannot cover the requested
local amount, the attempt fails with `insufficientFunds` carrying the
requested and the available amounts; the funding output amount must lie in
the policy's channel size range; leftover above the dust threshold becomes
a change output, a sub-dust leftover is folded into the fee. -/
def explicitAssemble (pol : Policy) (rate : Nat) (coins : List Nat)
    (localAmt : Nat) : Except FundingError FundingPlan :=
  if sumCoins coins < localAmt then
    .error (.insufficientFunds (localAmt : Int) (sumCoins coins : Int))
  else if localAmt < pol.minChanSize then
    .error (.belowMinChanSize (localAmt : Int) (pol.minChanSize : Int))
  else if pol.maxChanSize < localAmt then
    .error (.aboveMaxChanSize (localAmt : Int) (pol.maxChanSize : Int))
  else if (pol.dustLimit : Int) ≤ (sumCoins coins : Int) - (localAmt : Int)
      - (fundingFeeAt rate coins.length true : Int) then
    .ok ⟨coins, (localAmt : Int),
         (sumCoins coins : Int) - (localAmt : Int)
           - (fundingFeeAt rate coins.length true : Int),
         (fundingFeeAt rate coins.length true : Int)⟩
  else if (sumCoins coins : Int) - (localAmt : Int)
      - (fundingFeeAt rate coins.length false : Int) < 0 then
    .error (.insufficientFunds
      ((localAmt : Int) + (fundingFeeAt rate coins.length false : Int))
      (sumCoins coins : Int))
  else
    .ok ⟨coins, (localAmt : Int), 0,
         (sumCoins coins : Int) - (localAmt : Int)⟩

/-- Modelled from the spec (§4.4 fund-maximum mode): the funder-balance
validator run after the plan is built: the local balance after the push,
`(fundingAmt − pushAmt) * 1000 − commitFeeMsat` millisatoshi, must reach
the minimum funder balance required to cover future commitment fees.  It
is a function of the plan only — the remaining wallet balance is never
drawn on.  `commitFeeMsat` (the commitment transaction fee) and
`minFunderMsat` are supplied by the excluded commitment-construction
collaborator. -/
def checkFunderBalance (pushAmt commitFeeMsat minFunderMsat : Nat)
    (p : FundingPlan) : Except FundingError FundingPlan :=
  if (p.fundingAmt - (pushAmt : Int)) * 1000 - (commitFeeMsat : Int)
      < (minFunderMsat : Int) then
    .error (.funderBalanceTooSmall
      ((p.fundingAmt - (pushAmt : Int)) * 1000 - (commitFeeMsat : Int))
      (minFunderMsat : Int))
  else
    .ok p

/-- Modelled from the spec (§4.5): the full fund-maximum pipeline:
assemble the plan, then run the funder-balance validator. -/
def provisionFundMax (pol : Policy) (rate : Nat) (coins : List Nat)
    (freeRemainder reserve pushAmt commitFeeMsat minFunderMsat : Nat) :
    Except FundingError FundingPlan :=
  (fundMaxAssemble pol rate coins freeRemainder reserve).bind
    (checkFunderBalance pushAmt commitFeeMsat minFunderMsat)

/-- Post-open wallet remainder of a plan: the summed unselected free coins
plus the plan's change output. -/
def postOpenRemainder (freeRemainder : Nat) (p : FundingPlan) : Int :=
  (freeRemainder : Int) + p.changeAmt

example : fundMaxAssemble defaultPolicy (satPerVByteToKw 15) [2000] 0 0
    = .error (.dustOutput 174 1826 330) := by decide
example : fundMaxAssemble defaultPolicy (satPerVByteToKw 20) [2000] 0 0
    = .error (.dustOutput (-435) 2435 330) := by decide
example : fundMaxAssemble defaultPolicy (satPerVByteToKw 1) [18000] 0 0
    = .error (.belowMinChanSize 17877 20000) := by decide
example : fundMaxAssemble defaultPolicy 12500 [200000] 8000 10000
    = .ok ⟨[200000], 181763, 10000, 8237⟩ := by decide
example : fundMaxAssemble defaultPolicy 12500 [200000] 10000 10000
    = .ok ⟨[200000], 193913, 0, 6087⟩ := by decide
example : fundMaxAssemble defaultPolicy 12500 [200000, 50000] 100000 0
    = .ok ⟨[200000, 50000], 240500, 0, 9500⟩ := by decide
example : fundMaxAssemble defaultPolicy 12500 [20000000] 0 0
    = .ok ⟨[20000000], 16777215, 3214548, 8237⟩ := by decide
example : explicitAssemble defaultPolicy 12500 [200000, 100000] 250000
    = .ok ⟨[200000, 100000], 250000, 38350, 11650⟩ := by decide
example : explicitAssemble defaultPolicy 12500 [100000] 210337
    = .error (.insufficientFunds 210337 100000) := by decide
example : provisionFundMax defaultPolicy 12500 [20000000] 0 0
    MaxFundingAmount 9050000 708000
    = .error (.funderBalanceTooSmall (-9050000) 708000) := by decide

example : fundingTxWeight 1 false = 487 := by decide

/-- Folding inputs into the estimator adds their count, base sizes and
witness sizes, and sets the witness flag when at least one input was
added. -/
lemma foldl_addInputClass : ∀ (ins : List ScriptClass) (e : TxWeightEstimator),
    List.foldl addInputClass e ins =
      ⟨e.inputCount + ins.length, e.outputCount,
       e.inputSize + (ins.map inBaseOf).sum,
       e.inWitSize + (ins.map witnessSizeOf).sum,
       e.outputSize, e.hasWitness || !ins.isEmpty⟩
  | [], e => by cases e; simp
  | c :: cs, e => by
      rw [List.foldl_cons, foldl_addInputClass cs]
      simp only [addInputClass, List.map_cons, List.sum_cons, List.length_cons,
        List.isEmpty_cons, Bool.or_true, TxWeightEstimator.mk.injEq]
      repeat' apply And.intro
      all_goals first | rfl | trivial | omega | simp

/-- Folding outputs into the estimator adds their count and sizes and
leaves the input fields untouched. -/
lemma foldl_addOutputClass : ∀ (outs : List ScriptClass) (e : TxWeightEstimator),
    List.foldl addOutputClass e outs =
      ⟨e.inputCount, e.outputCount + outs.length, e.inputSize, e.inWitSize,
       e.outputSize + (outs.map outSizeOf).sum, e.hasWitness⟩
  | [], e => by cases e; simp
  | c :: cs, e => by
      rw [List.foldl_cons, foldl_addOutputClass cs]
      simp only [addOutputClass, List.map_cons, List.sum_cons, List.length_cons,
        TxWeightEstimator.mk.injEq]
      repeat' apply And.intro
      all_goals first | rfl | trivial | omega | simp

/-- The estimated weight equals its closed form: a pure function of the
input/output script classes through per-class constants, with witness
data discounted 4:1. -/
lemma estimateWeight_eq_closedForm (ins outs : List ScriptClass) :
    estimateWeight ins outs = weightClosedForm ins outs := by
  unfold estimateWeight weightClosedForm
  rw [foldl_addInputClass, foldl_addOutputClass]
  cases ins <;>
    simp [TxWeightEstimator.weight, TxWeightEstimator.empty]

/-- Closed form of the funding transaction weight used by `fundingFee`:
`n` witness-pubkey-hash inputs, the multisig funding output, optionally a
taproot change output. -/
lemma fundingTxWeight_eq (n : Nat) (change : Bool) :
    fundingTxWeight n change
      = 4 * (8 + varIntSize n + 41 * n + 1 + (if change then 86 else 43))
        + (if n = 0 then 0 else 2 + 109 * n) := by
  unfold fundingTxWeight
  rw [estimateWeight_eq_closedForm]
  unfold weightClosedForm
  cases change <;>
    simp [List.map_replicate, List.sum_replicate, inBaseOf, witnessSizeOf,
      outSizeOf, smul_eq_mul, Nat.mul_comm, varIntSize]

/-- Counting the optional change output adds exactly 172 weight units
(4 × 43 bytes of base data). -/
lemma fundingTxWeight_change (n : Nat) :
    fundingTxWeight n true = fundingTxWeight n false + 172 := by
  rw [fundingTxWeight_eq, fundingTxWeight_eq]
  simp
  omega

/-- The fee estimate with a change output is never smaller than the fee
estimate without one. -/
lemma fundingFeeAt_mono (rate n : Nat) :
    fundingFeeAt rate n false ≤ fundingFeeAt rate n true := by
  unfold fundingFeeAt feeForWeight
  apply Nat.div_le_div_right
  exact Nat.mul_le_mul_left rate (by rw [fundingTxWeight_change]; omega)

/-- Every plan produced by the fund-maximum assembler satisfies the exact
balance equation: the summed inputs equal funding output + change + fee. -/
lemma fundMaxAssemble_balance (pol : Policy) (rate : Nat) (coins : List Nat)
    (freeRemainder reserve : Nat) (p : FundingPlan)
    (h : fundMaxAssemble pol rate coins freeRemainder reserve = .ok p) :
    (sumCoins coins : Int) = p.fundingAmt + p.changeAmt + p.fee := by
  unfold fundMaxAssemble at h
  split_ifs at h <;>
    simp only [Except.ok.injEq] at h <;> subst h <;> simp <;> omega

/-- Every plan produced by the explicit-selection assembler satisfies the
exact balance equation. -/
lemma explicitAssemble_balance (pol : Policy) (rate : Nat) (coins : List Nat)
    (localAmt : Nat) (p : FundingPlan)
    (h : explicitAssemble pol rate coins localAmt = .ok p) :
    (sumCoins coins : Int) = p.fundingAmt + p.changeAmt + p.fee := by
  unfold explicitAssemble at h
  split_ifs at h <;>
    simp only [Except.ok.injEq] at h <;> subst h <;> simp <;> omega

/-- A successful full fund-maximum pipeline run returns exactly the plan
the assembler produced (the funder-balance validator never alters it). -/
lemma provisionFundMax_ok (pol : Policy) (rate : Nat) (coins : List Nat)
    (freeRemainder reserve pushAmt commitFeeMsat minFunderMsat : Nat)
    (p : FundingPlan)
    (h : provisionFundMax pol rate coins freeRemainder reserve pushAmt
        commitFeeMsat minFunderMsat = .ok p) :
    fundMaxAssemble pol rate coins freeRemainder reserve = .ok p := by
  unfold provisionFundMax at h
  cases ha : fundMaxAssemble pol rate coins freeRemainder reserve with
  | error e => rw [ha] at h; simp [Except.bind] at h
  | ok q =>
      rw [ha] at h
      simp only [Except.bind] at h
      unfold checkFunderBalance at h
      split_ifs at h <;> simp only [Except.ok.injEq] at h <;> subst h <;> rfl

/-- Every plan produced by the fund-maximum assembler has its funding
output amount within the policy's channel size range. -/
lemma fundMaxAssemble_bounds (pol : Policy) (rate : Nat) (coins : List Nat)
    (freeRemainder reserve : Nat) (p : FundingPlan)
    (hpol : pol.minChanSize ≤ pol.maxChanSize)
    (h : fundMaxAssemble pol rate coins freeRemainder reserve = .ok p) :
    (pol.minChanSize : Int) ≤ p.fundingAmt
      ∧ p.fundingAmt ≤ (pol.maxChanSize : Int) := by
  have hmono := fundingFeeAt_mono rate coins.length
  unfold fundMaxAssemble at h
  split_ifs at h <;>
    simp only [Except.ok.injEq] at h <;> subst h <;> simp <;> omega

/-- Every plan produced by the explicit-selection assembler has its
funding output amount within the policy's channel size range. -/
lemma explicitAssemble_bounds (pol : Policy) (rate : Nat) (coins : List Nat)
    (localAmt : Nat) (p : FundingPlan)
    (h : explicitAssemble pol rate coins localAmt = .ok p) :
    (pol.minChanSize : Int) ≤ p.fundingAmt
      ∧ p.fundingAmt ≤ (pol.maxChanSize : Int) := by
  unfold explicitAssemble at h
  split_ifs at h <;>
    simp only [Except.ok.injEq] at h <;> subst h <;> simp <;> omega
example : fundingTxWeight 1 true = 659 := by decide
example : fundingFee 1 false = 6087 := by decide
example : fundingFee 1 true = 8237 := by decide
example : fundingFee 2 false = 9500 := by decide
example : fundingFee 2 true = 11650 := by decide
example : fundingFeeAt (satPerVByteToKw 15) 1 false = 1826 := by decide
example : fundingFeeAt (satPerVByteToKw 20) 1 false = 2435 := by decide
example : fundingFeeAt (satPerVByteToKw 1) 1 false = 123 := by decide


/-- When the no-change spendable amount passes the cap, dust, and minimum
checks but the unselected remainder cannot cover the required reserve, the
fund-maximum assembler produces the reserve-shrunk plan: funding amount
total − fee(with change) − reserve, change output equal to the full
required reserve — provided the shrunk amount still meets the minimum
channel size. -/
lemma fundMaxAssemble_shrink_ok (pol : Policy) (rate : Nat)
    (coins : List Nat) (freeRemainder reserve : Nat)
    (hcap : ¬ ((pol.maxChanSize : Int) <
      (sumCoins coins : Int) - (fundingFeeAt rate coins.length false : Int)))
    (hdust : ¬ ((sumCoins coins : Int)
      - (fundingFeeAt rate coins.length false : Int) < (pol.dustLimit : Int)))
    (hmin : ¬ ((sumCoins coins : Int)
      - (fundingFeeAt rate coins.length false : Int) < (pol.minChanSize : Int)))
    (hres : freeRemainder < reserve)
    (hfit : ¬ ((sumCoins coins : Int)
      - (fundingFeeAt rate coins.length true : Int) - (reserve : Int)
      < (pol.minChanSize : Int))) :
    fundMaxAssemble pol rate coins freeRemainder reserve
      = .ok ⟨coins,
          (sumCoins coins : Int) - (fundingFeeAt rate coins.length true : Int)
            - (reserve : Int),
          (reserve : Int), (fundingFeeAt rate coins.length true : Int)⟩ := by
  unfold fundMaxAssemble
  rw [if_neg hcap, if_neg hdust, if_neg hmin, if_pos hres, if_neg hfit]

/-- In the same situation, if the shrunk funding amount would fall below
the minimum channel size, the attempt fails (with the reserve violation
reporting the shortfall). -/
lemma fundMaxAssemble_shrink_err (pol : Policy) (rate : Nat)
    (coins : List Nat) (freeRemainder reserve : Nat)
    (hcap : ¬ ((pol.maxChanSize : Int) <
      (sumCoins coins : Int) - (fundingFeeAt rate coins.length false : Int)))
    (hdust : ¬ ((sumCoins coins : Int)
      - (fundingFeeAt rate coins.length false : Int) < (pol.dustLimit : Int)))
    (hmin : ¬ ((sumCoins coins : Int)
      - (fundingFeeAt rate coins.length false : Int) < (pol.minChanSize : Int)))
    (hres : freeRemainder < reserve)
    (hfit : (sumCoins coins : Int)
      - (fundingFeeAt rate coins.length true : Int) - (reserve : Int)
      < (pol.minChanSize : Int)) :
    fundMaxAssemble pol rate coins freeRemainder reserve
      = .error (.reserveViolation ((reserve : Int) - (freeRemainder : Int))) := by
  unfold fundMaxAssemble
  rw [if_neg hcap, if_neg hdust, if_neg hmin, if_pos hres, if_pos hfit]

/-- C1: For every successfully produced funding plan, the exact integer
equation sum(input amounts) = fundingOutputAmount + changeAmount + fee
holds (changeAmount taken as 0 when no change output exists); in
particular, for a wallet of [200,000; 50,000; 100,000] with explicit
selection [200,000; 100,000] and local amount 250,000 the remaining
wallet balance is 350,000 − 250,000 − fee(2 inputs, with change), and for
explicit fund-maximum selection [200,000; 50,000] the funding output is
250,000 − fee(2 inputs, no change) with no change output. -/
theorem claim_C1 :
    (∀ (pol : Policy) (rate : Nat) (coins : List Nat)
        (freeRemainder reserve : Nat) (p : FundingPlan),
        fundMaxAssemble pol rate coins freeRemainder reserve = .ok p →
        (sumCoins coins : Int) = p.fundingAmt + p.changeAmt + p.fee)
  ∧ (∀ (pol : Policy) (rate : Nat) (coins : List Nat) (localAmt : Nat)
        (p : FundingPlan),
        explicitAssemble pol rate coins localAmt = .ok p →
        (sumCoins coins : Int) = p.fundingAmt + p.changeAmt + p.fee)
  ∧ (∀ (pol : Policy) (rate : Nat) (coins : List Nat)
        (freeRemainder reserve pushAmt commitFeeMsat minFunderMsat : Nat)
        (p : FundingPlan),
        provisionFundMax pol rate coins freeRemainder reserve pushAmt
          commitFeeMsat minFunderMsat = .ok p →
        (sumCoins coins : Int) = p.fundingAmt + p.changeAmt + p.fee)
  ∧ (explicitAssemble defaultPolicy 12500 [200000, 100000] 250000
       = .ok ⟨[200000, 100000], 250000, 38350, (fundingFee 2 true : Int)⟩
     ∧ postOpenRemainder 50000
         ⟨[200000, 100000], 250000, 38350, (fundingFee 2 true : Int)⟩
         = 350000 - 250000 - (fundingFee 2 true : Int))
  ∧ fundMaxAssemble defaultPolicy 12500 [200000, 50000] 100000 0
      = .ok ⟨[200000, 50000], 250000 - (fundingFee 2 false : Int), 0,
             (fundingFee 2 false : Int)⟩ :=
  ⟨fundMaxAssemble_balance,
   explicitAssemble_balance,
   fun pol rate coins fr rsv push cf mf p h =>
     fundMaxAssemble_balance pol rate coins fr rsv p
       (provisionFundMax_ok pol rate coins fr rsv push cf mf p h),
   ⟨by decide, by decide⟩,
   by decide⟩

/-- C1 witness: the balance equation evaluated on the concrete explicit
fund-maximum plan for selection [200,000; 50,000]. -/
theorem claim_C1_witness :
    (sumCoins [200000, 50000] : Int)
      = (250000 - (fundingFee 2 false : Int)) + 0
          + (fundingFee 2 false : Int) :=
  claim_C1.1 defaultPolicy 12500 [200000, 50000] 100000 0
    ⟨[200000, 50000], 250000 - (fundingFee 2 false : Int), 0,
     (fundingFee 2 false : Int)⟩
    (by decide)

/-- C2 counterexample: the claim says the fund-maximum reserve shrink
reduces the funding amount by exactly the shortfall, i.e. the required
reserve minus the already-free wallet remainder.  On the scenario of the
integration test (single selected 200,000 coin, free remainder 8,000,
required reserve 10,000) the assembler instead creates a change output of
the full required reserve 10,000, not the shortfall 10,000 − 8,000 =
2,000. -/
theorem claim_C2_counterexample :
    fundMaxAssemble defaultPolicy 12500 [200000] 8000 10000
      = .ok ⟨[200000], 181763, 10000, (fundingFee 1 true : Int)⟩
    ∧ (10000 : Int) ≠ 10000 - 8000 :=
  ⟨by decide, by decide⟩

/-- C2 (amended): In fund-maximum mode, if the unselected wallet remainder
would fall below the required reserve, the assembler re-estimates with a
change output and shrinks the funding amount so that a change output equal
to the full required reserve is produced (funding amount = selected total
− fee(with change) − required reserve), and fails only if this shrunk
funding amount would fall below the minimum channel size. -/
theorem claim_C2 (pol : Policy) (rate : Nat) (coins : List Nat)
    (freeRemainder reserve : Nat)
    (hcap : ¬ ((pol.maxChanSize : Int) <
      (sumCoins coins : Int) - (fundingFeeAt rate coins.length false : Int)))
    (hdust : ¬ ((sumCoins coins : Int)
      - (fundingFeeAt rate coins.length false : Int) < (pol.dustLimit : Int)))
    (hmin : ¬ ((sumCoins coins : Int)
      - (fundingFeeAt rate coins.length false : Int) < (pol.minChanSize : Int)))
    (hres : freeRemainder < reserve) :
    (((pol.minChanSize : Int) ≤ (sumCoins coins : Int)
        - (fundingFeeAt rate coins.length true : Int) - (reserve : Int)) →
      fundMaxAssemble pol rate coins freeRemainder reserve
        = .ok ⟨coins,
            (sumCoins coins : Int)
              - (fundingFeeAt rate coins.length true : Int) - (reserve : Int),
            (reserve : Int), (fundingFeeAt rate coins.length true : Int)⟩)
    ∧ (((sumCoins coins : Int) - (fundingFeeAt rate coins.length true : Int)
          - (reserve : Int) < (pol.minChanSize : Int)) →
      fundMaxAssemble pol rate coins freeRemainder reserve
        = .error (.reserveViolation ((reserve : Int) - (freeRemainder : Int)))) :=
  ⟨fun hfit => fundMaxAssemble_shrink_ok pol rate coins freeRemainder reserve
      hcap hdust hmin hres (not_lt.mpr hfit),
   fun hfit => fundMaxAssemble_shrink_err pol rate coins freeRemainder reserve
      hcap hdust hmin hres hfit⟩

/-- C2 witness: the amended shrink behavior evaluated on the integration
test scenario (200,000 coin, free remainder 8,000, reserve 10,000). -/
theorem claim_C2_witness :
    fundMaxAssemble defaultPolicy 12500 [200000] 8000 10000
      = .ok ⟨[200000],
          (sumCoins [200000] : Int)
            - (fundingFeeAt 12500 (List.length [200000]) true : Int)
            - ((10000 : Nat) : Int),
          ((10000 : Nat) : Int),
          (fundingFeeAt 12500 (List.length [200000]) true : Int)⟩ :=
  (claim_C2 defaultPolicy 12500 [200000] 8000 10000
    (by decide) (by decide) (by decide) (by decide)).1 (by decide)

/-- C3: For an anchor-format fund-maximum request selecting a single
200,000-satoshi coin, when the unselected wallet remainder cannot cover a
required reserve > 0, the reserve shortfall triggers the one-shot shrink:
the plan's change output equals the full required reserve, the funding
amount is 200,000 − fee(1 input, with change) − requiredReserve, and the
post-open wallet remainder equals the previous free remainder plus the
required reserve. -/
theorem claim_C3 (reserve freeRemainder : Nat)
    (hres : freeRemainder < reserve)
    (hfit : (defaultPolicy.minChanSize : Int)
      ≤ 200000 - (fundingFee 1 true : Int) - (reserve : Int)) :
    fundMaxAssemble defaultPolicy 12500 [200000] freeRemainder reserve
      = .ok ⟨[200000], 200000 - (fundingFee 1 true : Int) - (reserve : Int),
          (reserve : Int), (fundingFee 1 true : Int)⟩
    ∧ postOpenRemainder freeRemainder
        ⟨[200000], 200000 - (fundingFee 1 true : Int) - (reserve : Int),
         (reserve : Int), (fundingFee 1 true : Int)⟩
      = (freeRemainder : Int) + (reserve : Int) := by
  have e1 : (sumCoins [200000] : Int) = 200000 := by decide
  have e2 : fundingFeeAt 12500 (List.length [200000]) true = fundingFee 1 true :=
    rfl
  have h := fundMaxAssemble_shrink_ok defaultPolicy 12500 [200000]
    freeRemainder reserve (by decide) (by decide) (by decide) hres
    (by rw [e2]; omega)
  rw [e1, e2] at h
  exact ⟨h, rfl⟩

/-- C3 witness: the shrink scenario of the integration test — reserve
10,000, free remainder 8,000. -/
theorem claim_C3_witness :
    fundMaxAssemble defaultPolicy 12500 [200000] 8000 10000
      = .ok ⟨[200000],
          200000 - (fundingFee 1 true : Int) - ((10000 : Nat) : Int),
          ((10000 : Nat) : Int), (fundingFee 1 true : Int)⟩
    ∧ postOpenRemainder 8000
        ⟨[200000], 200000 - (fundingFee 1 true : Int) - ((10000 : Nat) : Int),
         ((10000 : Nat) : Int), (fundingFee 1 true : Int)⟩
      = ((8000 : Nat) : Int) + ((10000 : Nat) : Int) :=
  claim_C3 10000 8000 (by decide) (by decide)

/-- C4: A fund-maximum request on a wallet holding a single 2,000-satoshi
coin at fee rate 15 sat/vByte fails with the dust error reporting the
attempted output amount after fee subtraction (174 sat), the fee
subtracted (1,826 sat), and the dust threshold (330 sat). -/
theorem claim_C4 :
    fundMaxAssemble defaultPolicy (satPerVByteToKw 15) [2000] 0 0
      = .error (.dustOutput 174 1826 330) := by
  decide

/-- C5: For a fund-maximum request whose push amount equals the maximum
channel size, the funder-balance check — computed from the funding output
amount minus the push amount, never drawing on the remaining wallet
balance — comes out below the minimum and the attempt fails with
funderBalanceTooSmall; concretely, a 20,000,000-satoshi wallet with push
amount `MaxFundingAmount` fails reporting −9,050,000 msat after push and
commitment fee against the 708,000 msat minimum. -/
theorem claim_C5 :
    (∀ (pol : Policy) (rate : Nat) (coins : List Nat)
        (freeRemainder reserve commitFeeMsat minFunderMsat : Nat)
        (p : FundingPlan),
        pol.minChanSize ≤ pol.maxChanSize →
        0 < minFunderMsat →
        fundMaxAssemble pol rate coins freeRemainder reserve = .ok p →
        provisionFundMax pol rate coins freeRemainder reserve pol.maxChanSize
            commitFeeMsat minFunderMsat
          = .error (.funderBalanceTooSmall
              ((p.fundingAmt - (pol.maxChanSize : Int)) * 1000
                - (commitFeeMsat : Int))
              (minFunderMsat : Int))
        ∧ (p.fundingAmt - (pol.maxChanSize : Int)) * 1000
            - (commitFeeMsat : Int) < (minFunderMsat : Int))
  ∧ provisionFundMax defaultPolicy 12500 [20000000] 0 0 MaxFundingAmount
      9050000 708000
      = .error (.funderBalanceTooSmall (-9050000) 708000) := by
  constructor
  · intro pol rate coins freeRemainder reserve commitFeeMsat minFunderMsat p
      hpol hmsat hok
    have hb := (fundMaxAssemble_bounds pol rate coins freeRemainder reserve p
      hpol hok).2
    have hlt : (p.fundingAmt - (pol.maxChanSize : Int)) * 1000
        - (commitFeeMsat : Int) < (minFunderMsat : Int) := by omega
    refine ⟨?_, hlt⟩
    unfold provisionFundMax
    rw [hok]
    simp only [Except.bind]
    unfold checkFunderBalance
    rw [if_pos hlt]
  · decide

/-- C5 witness: the concrete 20,000,000-satoshi wallet with the push
amount equal to the maximum channel size. -/
theorem claim_C5_witness :
    provisionFundMax defaultPolicy 12500 [20000000] 0 0
        defaultPolicy.maxChanSize 9050000 708000
      = .error (.funderBalanceTooSmall
          (((16777215 : Int) - (defaultPolicy.maxChanSize : Int)) * 1000
            - ((9050000 : Nat) : Int))
          ((708000 : Nat) : Int))
    ∧ ((16777215 : Int) - (defaultPolicy.maxChanSize : Int)) * 1000
        - ((9050000 : Nat) : Int) < ((708000 : Nat) : Int) :=
  claim_C5.1 defaultPolicy 12500 [20000000] 0 0 9050000 708000
    ⟨[20000000], 16777215, 3214548, (fundingFee 1 true : Int)⟩
    (by decide) (by decide) (by decide)

/-- C6: In explicit-selection mode, a requested local amount of 210,337
satoshi against selected coins summing to 100,000 satoshi fails with
insufficientFunds carrying exactly the attempted amount 210,337 and the
available amount 100,000, both in satoshi. -/
theorem claim_C6 (pol : Policy) (rate : Nat) :
    explicitAssemble pol rate [100000] 210337
      = .error (.insufficientFunds 210337 100000) := by
  unfold explicitAssemble
  rw [if_pos (by decide)]
  norm_num [sumCoins]

/-- C6 witness: the same failure at the default policy and standard
funding fee rate. -/
theorem claim_C6_witness :
    explicitAssemble defaultPolicy 12500 [100000] 210337
      = .error (.insufficientFunds 210337 100000) :=
  claim_C6 defaultPolicy 12500

/-- C7: A fund-maximum request whose post-fee funding amount cannot meet
the minimum channel size fails with belowMinChanSize reporting the
available post-fee amount and the minimum; concretely, an 18,000-satoshi
wallet at fee rate 1 sat/vByte fails reporting available funds 17,877
satoshi against minimum 20,000 satoshi. -/
theorem claim_C7 :
    (∀ (pol : Policy) (rate : Nat) (coins : List Nat)
        (freeRemainder reserve : Nat),
        ¬ ((pol.maxChanSize : Int) < (sumCoins coins : Int)
          - (fundingFeeAt rate coins.length false : Int)) →
        ¬ ((sumCoins coins : Int)
          - (fundingFeeAt rate coins.length false : Int) < (pol.dustLimit : Int)) →
        (sumCoins coins : Int)
          - (fundingFeeAt rate coins.length false : Int) < (pol.minChanSize : Int) →
        fundMaxAssemble pol rate coins freeRemainder reserve
          = .error (.belowMinChanSize
              ((sumCoins coins : Int)
                - (fundingFeeAt rate coins.length false : Int))
              (pol.minChanSize : Int)))
  ∧ fundMaxAssemble defaultPolicy (satPerVByteToKw 1) [18000] 0 0
      = .error (.belowMinChanSize 17877 20000) := by
  constructor
  · intro pol rate coins freeRemainder reserve h1 h2 h3
    unfold fundMaxAssemble
    rw [if_neg h1, if_neg h2, if_pos h3]
  · decide

/-- C7 witness: the 18,000-satoshi wallet at fee rate 1 sat/vByte. -/
theorem claim_C7_witness :
    fundMaxAssemble defaultPolicy (satPerVByteToKw 1) [18000] 0 0
      = .error (.belowMinChanSize
          ((sumCoins [18000] : Int)
            - (fundingFeeAt (satPerVByteToKw 1) (List.length [18000]) false : Int))
          (defaultPolicy.minChanSize : Int)) :=
  claim_C7.1 defaultPolicy (satPerVByteToKw 1) [18000] 0 0
    (by decide) (by decide) (by decide)

/-- C8: For every produced plan, the funding output amount lies in the
inclusive range [minChannelSize, maxChannelSize]; in particular, a
fund-maximum request against a 20,000,000-satoshi wallet (exceeding the
maximum channel size) produces a plan whose funding output amount equals
exactly the maximum channel size, not an aboveMaxChanSize failure. -/
theorem claim_C8 :
    (∀ (pol : Policy) (rate : Nat) (coins : List Nat)
        (freeRemainder reserve : Nat) (p : FundingPlan),
        pol.minChanSize ≤ pol.maxChanSize →
        fundMaxAssemble pol rate coins freeRemainder reserve = .ok p →
        (pol.minChanSize : Int) ≤ p.fundingAmt
          ∧ p.fundingAmt ≤ (pol.maxChanSize : Int))
  ∧ (∀ (pol : Policy) (rate : Nat) (coins : List Nat) (localAmt : Nat)
        (p : FundingPlan),
        explicitAssemble pol rate coins localAmt = .ok p →
        (pol.minChanSize : Int) ≤ p.fundingAmt
          ∧ p.fundingAmt ≤ (pol.maxChanSize : Int))
  ∧ fundMaxAssemble defaultPolicy 12500 [20000000] 0 0
      = .ok ⟨[20000000], (MaxFundingAmount : Int), 3214548,
             (fundingFee 1 true : Int)⟩ :=
  ⟨fundMaxAssemble_bounds, explicitAssemble_bounds, by decide⟩

/-- C8 witness: the capped plan of the 20,000,000-satoshi wallet has its
funding amount within the policy range. -/
theorem claim_C8_witness :
    (defaultPolicy.minChanSize : Int) ≤ (MaxFundingAmount : Int)
      ∧ (MaxFundingAmount : Int) ≤ (defaultPolicy.maxChanSize : Int) :=
  claim_C8.1 defaultPolicy 12500 [20000000] 0 0
    ⟨[20000000], (MaxFundingAmount : Int), 3214548, (fundingFee 1 true : Int)⟩
    (by decide) (by decide)

/-- C9: The weight estimator is a pure deterministic function of the input
and output script classes — it equals a closed form built from per-class
constants with witness data discounted 4:1, and is invariant under
permuting the inputs and outputs — and the fee equals
feeRate * weight / 1000 with exact integer division rounded down (the
floor characterization: 1000·fee ≤ rate·weight < 1000·(fee + 1)), never
rounded up. -/
theorem claim_C9 :
    (∀ (ins outs : List ScriptClass),
        estimateWeight ins outs = weightClosedForm ins outs)
  ∧ (∀ (ins ins2 outs outs2 : List ScriptClass),
        ins.Perm ins2 → outs.Perm outs2 →
        estimateWeight ins outs = estimateWeight ins2 outs2)
  ∧ (∀ (rate w : Nat),
        feeForWeight rate w = rate * w / 1000
        ∧ 1000 * feeForWeight rate w ≤ rate * w
        ∧ rate * w < 1000 * (feeForWeight rate w + 1)) := by
  refine ⟨estimateWeight_eq_closedForm, ?_, ?_⟩
  · intro ins ins2 outs outs2 hi ho
    rw [estimateWeight_eq_closedForm, estimateWeight_eq_closedForm]
    unfold weightClosedForm
    rw [hi.length_eq, ho.length_eq, (hi.map inBaseOf).sum_eq,
        (hi.map witnessSizeOf).sum_eq, (ho.map outSizeOf).sum_eq]
  · intro rate w
    unfold feeForWeight
    omega

/-- C9 witness: permutation invariance at a concrete pair of input
lists. -/
theorem claim_C9_witness :
    estimateWeight [ScriptClass.p2wkh, ScriptClass.p2tr] [ScriptClass.p2wsh]
      = estimateWeight [ScriptClass.p2tr, ScriptClass.p2wkh]
          [ScriptClass.p2wsh] :=
  claim_C9.2.1 [ScriptClass.p2wkh, ScriptClass.p2tr]
    [ScriptClass.p2tr, ScriptClass.p2wkh]
    [ScriptClass.p2wsh] [ScriptClass.p2wsh]
    (List.Perm.swap ScriptClass.p2tr ScriptClass.p2wkh [])
    (List.Perm.refl [ScriptClass.p2wsh])

/-- C10: In fund-maximum mode, when the estimated fee exceeds the entire
selected amount, the attempt still fails with the dust-limit error
reporting a negative output amount (amount minus fee), not with an
insufficientFunds error; concretely, a 2,000-satoshi wallet at fee rate
20 sat/vByte fails with dustOutput(−435, 2,435, 330). -/
theorem claim_C10 :
    (∀ (pol : Policy) (rate : Nat) (coins : List Nat)
        (freeRemainder reserve : Nat),
        ¬ ((pol.maxChanSize : Int) < (sumCoins coins : Int)
          - (fundingFeeAt rate coins.length false : Int)) →
        (sumCoins coins : Int) < (fundingFeeAt rate coins.length false : Int) →
        fundMaxAssemble pol rate coins freeRemainder reserve
          = .error (.dustOutput
              ((sumCoins coins : Int)
                - (fundingFeeAt rate coins.length false : Int))
              (fundingFeeAt rate coins.length false : Int)
              (pol.dustLimit : Int))
        ∧ (sumCoins coins : Int)
            - (fundingFeeAt rate coins.length false : Int) < 0)
  ∧ fundMaxAssemble defaultPolicy (satPerVByteToKw 20) [2000] 0 0
      = .error (.dustOutput (-435) 2435 330) := by
  constructor
  · intro pol rate coins freeRemainder reserve h1 h2
    have hneg : (sumCoins coins : Int)
        - (fundingFeeAt rate coins.length false : Int) < 0 := by omega
    refine ⟨?_, hneg⟩
    unfold fundMaxAssemble
    rw [if_neg h1, if_pos (by omega)]
  · decide

/-- C10 witness: the 2,000-satoshi wallet at fee rate 20 sat/vByte, whose
fee 2,435 exceeds the wallet amount. -/
theorem claim_C10_witness :
    fundMaxAssemble defaultPolicy (satPerVByteToKw 20) [2000] 0 0
      = .error (.dustOutput
          ((sumCoins [2000] : Int)
            - (fundingFeeAt (satPerVByteToKw 20) (List.length [2000]) false : Int))
          (fundingFeeAt (satPerVByteToKw 20) (List.length [2000]) false : Int)
          (defaultPolicy.dustLimit : Int))
    ∧ (sumCoins [2000] : Int)
        - (fundingFeeAt (satPerVByteToKw 20) (List.length [2000]) false : Int) < 0 :=
  (claim_C10.1 defaultPolicy (satPerVByteToKw 20) [2000] 0 0
    (by decide) (by decide))

end LndFunding
